import Mathlib

/-!
Shallow embedding of the ClawRouter rule-based classifier
(`src/router/classifier` portion of `auth.ts`) and of the credential
loader (`src/auth.ts`).  JavaScript numbers appearing in scores, weights
and boundaries are modelled as rationals; the sigmoid confidence
calibration (which calls `Math.exp`) is modelled over the reals with
`Real.exp`.  JavaScript regular expressions from the fast path are
translated pattern by pattern into executable boolean matchers over
`List Char`, reproducing word boundaries (`\b`, ASCII word characters),
the dot metacharacter (any character except a line terminator) and the
case-insensitivity flag.
-/

/-- The four complexity tiers (`Tier` in `types.ts`). -/
inductive Tier where
  | SIMPLE
  | MEDIUM
  | COMPLEX
  | REASONING
deriving DecidableEq, Repr

/-- Rendering of a tier name, as used by the template string
`quick-match: ...` in `classifyByRules`. -/
def tierToString : Tier → String
  | .SIMPLE => "SIMPLE"
  | .MEDIUM => "MEDIUM"
  | .COMPLEX => "COMPLEX"
  | .REASONING => "REASONING"

/-- ASCII word character, the `\w` class used by JavaScript `\b`. -/
def isWordChar (c : Char) : Bool := c.isAlphanum || c == '_'

/-- JavaScript line terminators, the characters NOT matched by `.`. -/
def isLineTerm (c : Char) : Bool :=
  c == '\n' || c == '\r' || c == Char.ofNat 0x2028 || c == Char.ofNat 0x2029

/-- A character matched by the regex metacharacter `.`. -/
def dotChar (c : Char) : Bool := ! isLineTerm c

/-- JavaScript whitespace class `\s` (ASCII part plus form feed and
vertical tab). -/
def isJsSpace (c : Char) : Bool :=
  c.isWhitespace || c == Char.ofNat 0x0b || c == Char.ofNat 0x0c

/-- Embedding of `String.prototype.toLowerCase()` (character-wise simple
lower-casing). -/
def toLowerCase (s : String) : String := String.mk (s.data.map Char.toLower)

/-- Embedding of `String.prototype.trim()`: strip JavaScript whitespace
from both ends. -/
def jsTrim (s : String) : String :=
  String.mk (((s.data.dropWhile isJsSpace).reverse.dropWhile isJsSpace).reverse)

/-- Embedding of `Array.prototype.join(", ")`. -/
def joinComma : List String → String
  | [] => ""
  | [x] => x
  | x :: rest => x ++ ", " ++ joinComma rest

/-- Case-insensitive prefix test: the pattern (given in lower case)
matches the beginning of the text, lowering each text character. -/
def ciStarts : List Char → List Char → Bool
  | [], _ => true
  | _ :: _, [] => false
  | p :: ps, c :: cs => (c.toLower == p) && ciStarts ps cs

/-- Wordness of an optional character (absent counts as non-word),
used for `\b` at string edges. -/
def wordOpt : Option Char → Bool
  | some c => isWordChar c
  | none => false

/-- Word boundary after a word ending in a word character: the next
character must be absent or a non-word character. -/
def afterBd : List Char → Bool
  | [] => true
  | c :: _ => ! isWordChar c

/-- Scan for `\bw\b` (with `w` starting and ending in word characters)
at every position of the text, tracking the previous character for the
left boundary. -/
def scanWord (w : List Char) : Option Char → List Char → Bool
  | _, [] => false
  | prev, c :: rest =>
    ((! wordOpt prev) && ciStarts w (c :: rest) && afterBd ((c :: rest).drop w.length))
      || scanWord w (some c) rest

/-- Case-insensitive search for the word `w` delimited by `\b` on both
sides, anywhere in `s`. -/
def containsWordCI (w : String) (s : String) : Bool :=
  scanWord w.data none s.data

/-- Substring containment, the embedding of
`String.prototype.includes` (case-sensitive). -/
def listStarts : List Char → List Char → Bool
  | [], _ => true
  | _ :: _, [] => false
  | p :: ps, c :: cs => (c == p) && listStarts ps cs

/-- Substring search used for `text.includes(kw)`. -/
def listContainsSub (pat : List Char) : List Char → Bool
  | [] => listStarts pat []
  | c :: rest => listStarts pat (c :: rest) || listContainsSub pat rest

/-- Embedding of `text.includes(pat)`. -/
def containsSubstr (s pat : String) : Bool := listContainsSub pat.data s.data

/-- An apostrophe character, used in the literal `what's`. -/
def apos : Char := Char.ofNat 39

/-- The string consisting of a single apostrophe. -/
def aposS : String := String.mk [apos]

/-- Pattern `^(hi|hey|hello|yo|sup|hola|bonjour|hallo|привет|你好|こんにちは)\b` (i). -/
def simplePat1 (s : String) : Bool :=
  ["hi", "hey", "hello", "yo", "sup", "hola", "bonjour", "hallo",
   "привет", "你好", "こんにちは"].any fun w =>
    ciStarts w.data s.data &&
      ((match w.data.getLast? with
        | some c => isWordChar c
        | none => false)
        != wordOpt (s.data.drop w.data.length).head?)

/-- Pattern `^what('s| is) (your name|the weather|the time|today|up)` (i). -/
def simplePat2 (s : String) : Bool :=
  [aposS ++ "s", " is"].any fun mid =>
    ["your name", "the weather", "the time", "today", "up"].any fun obj =>
      ciStarts ("what" ++ mid ++ " " ++ obj).data s.data

/-- Tail of pattern 3: `\s*[.!?]?$`. -/
def ackTail (r : List Char) : Bool :=
  match r.dropWhile isJsSpace with
  | [] => true
  | [c] => c == '.' || c == '!' || c == '?'
  | _ => false

/-- Pattern `^(yes|no|ok|okay|okie|sure|thanks|thank you|thx|ty|cool|nice|got it|sounds good)\s*[.!?]?$` (i). -/
def simplePat3 (s : String) : Bool :=
  ["yes", "no", "ok", "okay", "okie", "sure", "thanks", "thank you",
   "thx", "ty", "cool", "nice", "got it", "sounds good"].any fun w =>
    ciStarts w.data s.data && ackTail (s.data.drop w.data.length)

/-- Pattern `^(are you (there|here|still there|awake|around|available|online)|you (there|here|ok))\??$` (i). -/
def simplePat4 (s : String) : Bool :=
  ["are you there", "are you here", "are you still there", "are you awake",
   "are you around", "are you available", "are you online",
   "you there", "you here", "you ok"].any fun ph =>
    toLowerCase s == ph || toLowerCase s == ph ++ "?"

/-- Pattern `^(who|what|where|when|how old|how much|how many) (is|are|was|were) ` (i). -/
def simplePat5 (s : String) : Bool :=
  ["who", "what", "where", "when", "how old", "how much", "how many"].any fun q =>
    ["is", "are", "was", "were"].any fun v =>
      ciStarts (q ++ " " ++ v ++ " ").data s.data

/-- Pattern `^(define|translate|meaning of) ` (i). -/
def simplePat6 (s : String) : Bool :=
  ["define ", "translate ", "meaning of "].any fun p => ciStarts p.data s.data

/-- Pattern `^.{1,20}$`: the whole string is one to twenty characters,
none of them a line terminator. -/
def simplePat7 (s : String) : Bool :=
  decide (1 ≤ s.length) && decide (s.length ≤ 20) &&
    s.data.all fun c => ! isLineTerm c

/-- Search for `reason\b` reachable from the current position across
`.*` (characters matched by `.`). -/
def reasonFrom : List Char → Bool
  | [] => false
  | c :: r =>
    (ciStarts "reason".data (c :: r) && afterBd ((c :: r).drop 6))
      || (dotChar c && reasonFrom r)

/-- Match `step.by.step.*reason\b` at the current position. -/
def stepAt (l : List Char) : Bool :=
  ciStarts "step".data l &&
    (match l.drop 4 with
     | [] => false
     | c1 :: r1 =>
       dotChar c1 && ciStarts "by".data r1 &&
         (match r1.drop 2 with
          | [] => false
          | c2 :: r2 =>
            dotChar c2 && ciStarts "step".data r2 && reasonFrom (r2.drop 4)))

/-- Scan for `\bstep.by.step.*reason\b` at every position. -/
def scanStep : Option Char → List Char → Bool
  | _, [] => false
  | prev, c :: r => ((! wordOpt prev) && stepAt (c :: r)) || scanStep (some c) r

/-- Pattern `\b(prove|theorem|derive|proof|formally verify|step.by.step.*reason)\b` (i). -/
def reasoningPat1 (s : String) : Bool :=
  (["prove", "theorem", "derive", "proof", "formally verify"].any fun w =>
    containsWordCI w s) || scanStep none s.data

/-- Pattern `\b(mathematical proof|logical derivation|chain of thought)\b` (i). -/
def reasoningPat2 (s : String) : Bool :=
  ["mathematical proof", "logical derivation", "chain of thought"].any fun w =>
    containsWordCI w s

/-- Pattern `\b(architect|design system|microservice|distributed|scalab|infrastructure)\b` (i). -/
def complexPat1 (s : String) : Bool :=
  ["architect", "design system", "microservice", "distributed", "scalab",
   "infrastructure"].any fun w => containsWordCI w s

/-- Pattern `\b(optimize|refactor|migrate|overhaul)\b` (i). -/
def complexPat2 (s : String) : Bool :=
  ["optimize", "refactor", "migrate", "overhaul"].any fun w => containsWordCI w s

/-- Pattern `^(write|create|make|build|implement|code|debug|fix|develop|generate) (a |an |the |some )` (i). -/
def mediumPat1 (s : String) : Bool :=
  ["write", "create", "make", "build", "implement", "code", "debug", "fix",
   "develop", "generate"].any fun v =>
    ["a ", "an ", "the ", "some "].any fun art =>
      ciStarts (v ++ " " ++ art).data s.data

/-- Search for `\b(write|create|implement|build|code)\b` reachable across
`.*` from the current position (the previous character is tracked for the
left word boundary). -/
def findSecondVerb : Option Char → List Char → Bool
  | _, [] => false
  | prev, c :: r =>
    ((! wordOpt prev) &&
      (["write", "create", "implement", "build", "code"].any fun w =>
        ciStarts w.data (c :: r) && afterBd ((c :: r).drop w.length)))
      || (dotChar c && findSecondVerb (some c) r)

/-- Match `(function|class|component|api|endpoint)\b.*\b(write|...)\b`
at the current position. -/
def mediumPairAt (l : List Char) : Bool :=
  ["function", "class", "component", "api", "endpoint"].any fun w =>
    ciStarts w.data l && afterBd (l.drop w.length) &&
      findSecondVerb w.data.getLast? (l.drop w.length)

/-- Scan for the first noun of the pair pattern at every position. -/
def scanMediumPair : Option Char → List Char → Bool
  | _, [] => false
  | prev, c :: r =>
    ((! wordOpt prev) && mediumPairAt (c :: r)) || scanMediumPair (some c) r

/-- Pattern `\b(function|class|component|api|endpoint)\b.*\b(write|create|implement|build|code)\b` (i). -/
def mediumPat2 (s : String) : Bool := scanMediumPair none s.data

/-- The array `SIMPLE_PATTERNS` from the source, in order. -/
def SIMPLE_PATTERNS : List (String → Bool) :=
  [simplePat1, simplePat2, simplePat3, simplePat4, simplePat5, simplePat6,
   simplePat7]

/-- The array `MEDIUM_PATTERNS` from the source. -/
def MEDIUM_PATTERNS : List (String → Bool) := [mediumPat1, mediumPat2]

/-- The array `COMPLEX_PATTERNS` from the source. -/
def COMPLEX_PATTERNS : List (String → Bool) := [complexPat1, complexPat2]

/-- The array `REASONING_PATTERNS` from the source. -/
def REASONING_PATTERNS : List (String → Bool) := [reasoningPat1, reasoningPat2]

/-- Embedding of `quickPatternMatch`: test the trimmed user text against
the four ordered pattern groups, returning the tier and fixed confidence
of the first group with a matching pattern. -/
def quickPatternMatch (userText : String) : Option (Tier × ℚ) :=
  let trimmed := jsTrim userText
  if SIMPLE_PATTERNS.any (fun p => p trimmed) then some (.SIMPLE, 0.95)
  else if REASONING_PATTERNS.any (fun p => p trimmed) then some (.REASONING, 0.90)
  else if COMPLEX_PATTERNS.any (fun p => p trimmed) then some (.COMPLEX, 0.85)
  else if MEDIUM_PATTERNS.any (fun p => p trimmed) then some (.MEDIUM, 0.80)
  else none

/-- A dimension score (`DimensionScore` in the source): name, score and
optional signal string. -/
structure DimensionScore where
  name : String
  score : ℚ
  signal : Option String
deriving DecidableEq, Repr

/-- Token-count thresholds `{simple, complex}`. -/
structure TokenThresholds where
  simple : ℕ
  complex : ℕ
deriving DecidableEq, Repr

/-- Tier boundaries `{simpleMedium, mediumComplex, complexReasoning}`. -/
structure TierBoundaries where
  simpleMedium : ℚ
  mediumComplex : ℚ
  complexReasoning : ℚ
deriving DecidableEq, Repr

/-- Match-count thresholds `{low, high}` passed to `scoreKeywordMatch`. -/
structure MatchThresholds where
  low : ℕ
  high : ℕ
deriving DecidableEq, Repr

/-- Score levels `{none, low, high}` passed to `scoreKeywordMatch`
(fields renamed to avoid clashing with `Option.none`). -/
structure MatchScores where
  scoreNone : ℚ
  scoreLow : ℚ
  scoreHigh : ℚ
deriving DecidableEq, Repr

/-- The classifier configuration (`ScoringConfig` in `types.ts`), with
the dimension-weight record modelled as an association list so that the
`weights[d.name] ?? 0` lookup keeps its default. -/
structure ScoringConfig where
  dimensionWeights : List (String × ℚ)
  codeKeywords : List String
  reasoningKeywords : List String
  technicalKeywords : List String
  creativeKeywords : List String
  simpleKeywords : List String
  imperativeVerbs : List String
  constraintIndicators : List String
  outputFormatKeywords : List String
  referenceKeywords : List String
  negationKeywords : List String
  domainSpecificKeywords : List String
  agenticTaskKeywords : List String
  tokenCountThresholds : TokenThresholds
  tierBoundaries : TierBoundaries
  confidenceSteepness : ℚ
  confidenceThreshold : ℚ
deriving DecidableEq, Repr

/-- The classifier result (`ScoringResult` in `types.ts`); the sigmoid
confidence lives in the reals. -/
structure ScoringResult where
  score : ℚ
  tier : Option Tier
  confidence : ℝ
  signals : List String
  agenticScore : ℚ

/-- Lookup in the dimension-weight record: `weights[name] ?? 0`. -/
def lookupWeight : List (String × ℚ) → String → ℚ
  | [], _ => 0
  | (k, w) :: rest, name => if k == name then w else lookupWeight rest name

/-- Embedding of `scoreTokenCount`. -/
def scoreTokenCount (estimatedTokens : ℕ) (thresholds : TokenThresholds) :
    DimensionScore :=
  if estimatedTokens < thresholds.simple then
    { name := "tokenCount", score := -1.0,
      signal := some ("short (" ++ toString estimatedTokens ++ " tokens)") }
  else if estimatedTokens > thresholds.complex then
    { name := "tokenCount", score := 1.0,
      signal := some ("long (" ++ toString estimatedTokens ++ " tokens)") }
  else { name := "tokenCount", score := 0, signal := none }

/-- Embedding of `scoreKeywordMatch`. -/
def scoreKeywordMatch (text : String) (keywords : List String) (name : String)
    (signalLabel : String) (thresholds : MatchThresholds)
    (scores : MatchScores) : DimensionScore :=
  let matched := keywords.filter fun kw => containsSubstr text (toLowerCase kw)
  if matched.length ≥ thresholds.high then
    { name := name, score := scores.scoreHigh,
      signal := some (signalLabel ++ " (" ++
        joinComma (matched.take 3) ++ ")") }
  else if matched.length ≥ thresholds.low then
    { name := name, score := scores.scoreLow,
      signal := some (signalLabel ++ " (" ++
        joinComma (matched.take 3) ++ ")") }
  else { name := name, score := scores.scoreNone, signal := none }

/-- Scanner for regex `first.*then` (i): find `then` across `.` characters. -/
def thenFrom : List Char → Bool
  | [] => false
  | c :: r => ciStarts "then".data (c :: r) || (dotChar c && thenFrom r)

/-- Scanner for regex `first.*then` (i), trying every start position. -/
def scanFirstThen : List Char → Bool
  | [] => false
  | c :: r =>
    (ciStarts "first".data (c :: r) && thenFrom ((c :: r).drop 5))
      || scanFirstThen r

/-- Scanner for regex `step \d` (i). -/
def scanStepDigit : List Char → Bool
  | [] => false
  | c :: r =>
    (ciStarts "step ".data (c :: r) &&
      (match (c :: r).drop 5 with
       | d :: _ => d.isDigit
       | [] => false))
      || scanStepDigit r

/-- Scanner for regex `\d\.\s`. -/
def scanDigitDotSpace : List Char → Bool
  | [] => false
  | a :: rest =>
    (a.isDigit &&
      (match rest with
       | b :: c :: _ => b == '.' && isJsSpace c
       | _ => false))
      || scanDigitDotSpace rest

/-- Embedding of `scoreMultiStep`: the three patterns
`first.*then` (i), `step \d` (i) and `\d\.\s`. -/
def scoreMultiStep (text : String) : DimensionScore :=
  let hits := [scanFirstThen text.data, scanStepDigit text.data,
    scanDigitDotSpace text.data].filter fun b => b
  if hits.length > 0 then
    { name := "multiStepPatterns", score := 0.5, signal := some "multi-step" }
  else { name := "multiStepPatterns", score := 0, signal := none }

/-- Embedding of `scoreQuestionComplexity`: counts `?` characters in the
raw prompt. -/
def scoreQuestionComplexity (prompt : String) : DimensionScore :=
  let count := (prompt.data.filter fun c => c == '?').length
  if count > 3 then
    { name := "questionComplexity", score := 0.5,
      signal := some (toString count ++ " questions") }
  else { name := "questionComplexity", score := 0, signal := none }

/-- Result type of `scoreAgenticTask`. -/
structure AgenticResult where
  dimensionScore : DimensionScore
  agenticScore : ℚ
deriving DecidableEq, Repr

/-- Embedding of `scoreAgenticTask`: the keyword loop is a filter, the
match count its length and the collected signals its first three
elements. -/
def scoreAgenticTask (text : String) (keywords : List String) : AgenticResult :=
  let matched := keywords.filter fun kw => containsSubstr text (toLowerCase kw)
  let matchCount := matched.length
  let signals := matched.take 3
  if matchCount ≥ 4 then
    { dimensionScore :=
        { name := "agenticTask", score := 1.0,
          signal := some ("agentic (" ++ joinComma signals ++ ")") },
      agenticScore := 1.0 }
  else if matchCount ≥ 3 then
    { dimensionScore :=
        { name := "agenticTask", score := 0.6,
          signal := some ("agentic (" ++ joinComma signals ++ ")") },
      agenticScore := 0.6 }
  else if matchCount ≥ 1 then
    { dimensionScore :=
        { name := "agenticTask", score := 0.2,
          signal := some ("agentic-light (" ++ joinComma signals ++ ")") },
      agenticScore := 0.2 }
  else
    { dimensionScore := { name := "agenticTask", score := 0, signal := none },
      agenticScore := 0 }

/-- The text used for agentic detection:
`` `${systemPrompt ?? ""} ${prompt}`.toLowerCase() ``. -/
def fullTextOf (systemPrompt : Option String) (prompt : String) : String :=
  toLowerCase ((match systemPrompt with | some s => s | none => "") ++ " " ++ prompt)

/-- The base dimension array of `classifyByRules` (everything before the
agentic dimension is pushed), in source order.  `text` and `userText`
are both the lowercased prompt, and `scoreQuestionComplexity` receives
the raw prompt, exactly as in the source. -/
def baseDimensions (prompt : String) (estimatedTokens : ℕ)
    (config : ScoringConfig) : List DimensionScore :=
  let userText := toLowerCase prompt
  let text := userText
  [scoreTokenCount estimatedTokens config.tokenCountThresholds,
   scoreKeywordMatch text config.codeKeywords "codePresence" "code"
     ⟨1, 2⟩ ⟨0, 0.5, 1.0⟩,
   scoreKeywordMatch userText config.reasoningKeywords "reasoningMarkers"
     "reasoning" ⟨1, 2⟩ ⟨0, 0.7, 1.0⟩,
   scoreKeywordMatch text config.technicalKeywords "technicalTerms"
     "technical" ⟨2, 4⟩ ⟨0, 0.5, 1.0⟩,
   scoreKeywordMatch text config.creativeKeywords "creativeMarkers"
     "creative" ⟨1, 2⟩ ⟨0, 0.5, 0.7⟩,
   scoreKeywordMatch text config.simpleKeywords "simpleIndicators"
     "simple" ⟨1, 2⟩ ⟨0, -1.0, -1.0⟩,
   scoreMultiStep text,
   scoreQuestionComplexity prompt,
   scoreKeywordMatch text config.imperativeVerbs "imperativeVerbs"
     "imperative" ⟨1, 2⟩ ⟨0, 0.3, 0.5⟩,
   scoreKeywordMatch text config.constraintIndicators "constraintCount"
     "constraints" ⟨1, 3⟩ ⟨0, 0.3, 0.7⟩,
   scoreKeywordMatch text config.outputFormatKeywords "outputFormat"
     "format" ⟨1, 2⟩ ⟨0, 0.4, 0.7⟩,
   scoreKeywordMatch text config.referenceKeywords "referenceComplexity"
     "references" ⟨1, 2⟩ ⟨0, 0.3, 0.5⟩,
   scoreKeywordMatch text config.negationKeywords "negationComplexity"
     "negation" ⟨2, 3⟩ ⟨0, 0.3, 0.5⟩,
   scoreKeywordMatch text config.domainSpecificKeywords "domainSpecificity"
     "domain-specific" ⟨1, 2⟩ ⟨0, 0.5, 0.8⟩]

/-- All dimensions: the base array with the agentic dimension pushed at
the end. -/
def allDimensions (prompt : String) (systemPrompt : Option String)
    (estimatedTokens : ℕ) (config : ScoringConfig) : List DimensionScore :=
  baseDimensions prompt estimatedTokens config ++
    [(scoreAgenticTask (fullTextOf systemPrompt prompt)
        config.agenticTaskKeywords).dimensionScore]

/-- The collected non-null signals:
`dimensions.filter(d => d.signal !== null).map(d => d.signal!)`. -/
def signalsOf (prompt : String) (systemPrompt : Option String)
    (estimatedTokens : ℕ) (config : ScoringConfig) : List String :=
  (allDimensions prompt systemPrompt estimatedTokens config).filterMap
    DimensionScore.signal

/-- The weighted score: fold of `d.score * (weights[d.name] ?? 0)`. -/
def weightedScoreOf (prompt : String) (systemPrompt : Option String)
    (estimatedTokens : ℕ) (config : ScoringConfig) : ℚ :=
  (allDimensions prompt systemPrompt estimatedTokens config).foldl
    (fun acc d => acc + d.score * lookupWeight config.dimensionWeights d.name) 0

/-- The agentic score reported alongside the result. -/
def agenticScoreOf (prompt : String) (systemPrompt : Option String)
    (config : ScoringConfig) : ℚ :=
  (scoreAgenticTask (fullTextOf systemPrompt prompt)
    config.agenticTaskKeywords).agenticScore

/-- The reasoning-keyword matches used by the reasoning override:
`config.reasoningKeywords.filter(kw => userText.includes(kw.toLowerCase()))`. -/
def reasoningMatchesOf (prompt : String) (config : ScoringConfig) :
    List String :=
  config.reasoningKeywords.filter fun kw =>
    containsSubstr (toLowerCase prompt) (toLowerCase kw)

/-- Embedding of `calibrateConfidence`: the sigmoid
`1 / (1 + exp(-steepness * distance))`. -/
noncomputable def calibrateConfidence (distance : ℚ) (steepness : ℚ) : ℝ :=
  1 / (1 + Real.exp (-(steepness : ℝ) * (distance : ℝ)))

/-- The tier chosen by the boundary `if`-chain of `classifyByRules`. -/
def codeTier (b : TierBoundaries) (s : ℚ) : Tier :=
  if s < b.simpleMedium then .SIMPLE
  else if s < b.mediumComplex then .MEDIUM
  else if s < b.complexReasoning then .COMPLEX
  else .REASONING

/-- The `distanceFromBoundary` computed by the same `if`-chain. -/
def codeDistance (b : TierBoundaries) (s : ℚ) : ℚ :=
  if s < b.simpleMedium then b.simpleMedium - s
  else if s < b.mediumComplex then
    min (s - b.simpleMedium) (b.mediumComplex - s)
  else if s < b.complexReasoning then
    min (s - b.mediumComplex) (b.complexReasoning - s)
  else s - b.complexReasoning

/-- The calibrated confidence of the weighted-scoring path. -/
noncomputable def slowConfidence (prompt : String)
    (systemPrompt : Option String) (estimatedTokens : ℕ)
    (config : ScoringConfig) : ℝ :=
  calibrateConfidence
    (codeDistance config.tierBoundaries
      (weightedScoreOf prompt systemPrompt estimatedTokens config))
    config.confidenceSteepness

/-- The weighted-scoring path of `classifyByRules` (everything after the
quick-match test fails): dimension scoring, reasoning override, boundary
mapping, confidence calibration and the threshold test. -/
noncomputable def weightedPath (prompt : String)
    (systemPrompt : Option String) (estimatedTokens : ℕ)
    (config : ScoringConfig) : ScoringResult :=
  let weightedScore := weightedScoreOf prompt systemPrompt estimatedTokens config
  let signals := signalsOf prompt systemPrompt estimatedTokens config
  let agenticScore := agenticScoreOf prompt systemPrompt config
  let reasoningMatches := reasoningMatchesOf prompt config
  if reasoningMatches.length ≥ 2 then
    let confidence :=
      calibrateConfidence (max weightedScore 0.3) config.confidenceSteepness
    { score := weightedScore, tier := some .REASONING,
      confidence := max confidence 0.85, signals := signals,
      agenticScore := agenticScore }
  else
    let tier := codeTier config.tierBoundaries weightedScore
    let confidence := slowConfidence prompt systemPrompt estimatedTokens config
    if confidence < (config.confidenceThreshold : ℝ) then
      { score := weightedScore, tier := none, confidence := confidence,
        signals := signals, agenticScore := agenticScore }
    else
      { score := weightedScore, tier := some tier, confidence := confidence,
        signals := signals, agenticScore := agenticScore }

/-- Embedding of `classifyByRules`: quick pattern matching on the
lowercased user message, falling through to the weighted-scoring path. -/
noncomputable def classifyByRules (prompt : String)
    (systemPrompt : Option String) (estimatedTokens : ℕ)
    (config : ScoringConfig) : ScoringResult :=
  let userText := toLowerCase prompt
  match quickPatternMatch userText with
  | some qm =>
    { score := 0, tier := some qm.1, confidence := (qm.2 : ℝ),
      signals := ["quick-match: " ++ tierToString qm.1], agenticScore := 0 }
  | none => weightedPath prompt systemPrompt estimatedTokens config

/-- Provider credentials (`ProviderAuth` in `auth.ts`). -/
structure ProviderAuth where
  provider : String
  profileName : String
  token : Option String
  apiKey : Option String
deriving DecidableEq, Repr

/-- Parsed contents of a Claude CLI credential file: the fields the
loader reads (`data.token` and `data.claudeAiOauth?.accessToken`). -/
structure CredFile where
  token : Option String
  oauthAccessToken : Option String
deriving DecidableEq, Repr

/-- A skill entry of the Clawdbot config (`skills.entries` values). -/
structure SkillConfig where
  apiKey : Option String
deriving DecidableEq, Repr

/-- Parsed Clawdbot config: the skill entries in object order
(`config.skills?.entries`, absent or empty when missing). -/
structure ClawdbotConfig where
  skillsEntries : List (String × SkillConfig)
deriving DecidableEq, Repr

/-- The ambient world the credential loader reads: the Keychain call
result (`none` models a thrown error or non-macOS host), the environment
variables by name, the two Claude CLI credential files in path order
(`none` models a missing or unparseable file), and the Clawdbot config
(`none` models a missing or unparseable file). -/
structure World where
  keychain : Option String
  envAnthropicApiKey : Option String
  envAnthropicAuthToken : Option String
  envClaudeCodeToken : Option String
  envOpenaiApiKey : Option String
  credFile1 : Option CredFile
  credFile2 : Option CredFile
  clawdbotConfig : Option ClawdbotConfig
deriving DecidableEq, Repr

/-- JavaScript truthiness of a possibly-absent string: present and
non-empty. -/
def jsTruthy : Option String → Bool
  | some s => ! (s == "")
  | none => false

/-- Embedding of `getAnthropicTokenFromKeychain`: trim the command
output and accept it only when non-empty and starting with `sk-ant-`. -/
def getAnthropicTokenFromKeychain (w : World) : Option String :=
  match w.keychain with
  | none => none
  | some raw =>
    let result := jsTrim raw
    if (! (result == "")) && listStarts "sk-ant-".data result.data then some result
    else none

/-- Token extraction from one credential file: `data.token` first, then
`data.claudeAiOauth?.accessToken`, both under truthiness checks. -/
def credFileToken : Option CredFile → Option String
  | none => none
  | some data =>
    if jsTruthy data.token then data.token
    else if jsTruthy data.oauthAccessToken then data.oauthAccessToken
    else none

/-- Loop over the candidate credential files in path order. -/
def firstCredFileToken : List (Option CredFile) → Option String
  | [] => none
  | f :: rest =>
    match credFileToken f with
    | some t => some t
    | none => firstCredFileToken rest

/-- Embedding of `getAnthropicTokenFromEnvOrFiles`: environment
variables in order, then the credential files. -/
def getAnthropicTokenFromEnvOrFiles (w : World) : Option String :=
  if jsTruthy w.envAnthropicApiKey then w.envAnthropicApiKey
  else if jsTruthy w.envAnthropicAuthToken then w.envAnthropicAuthToken
  else if jsTruthy w.envClaudeCodeToken then w.envClaudeCodeToken
  else firstCredFileToken [w.credFile1, w.credFile2]

/-- The auth map, keyed by provider name (a `Map<string, ProviderAuth>`
modelled as an association list in insertion order). -/
def AuthMap : Type := List (String × ProviderAuth)

/-- Embedding of `Map.get`. -/
def mapLookup : List (String × ProviderAuth) → String → Option ProviderAuth
  | [], _ => none
  | (k, v) :: rest, key => if k = key then some v else mapLookup rest key

/-- Embedding of `Map.has`. -/
def mapHas (m : List (String × ProviderAuth)) (key : String) : Bool :=
  (mapLookup m key).isSome

/-- Embedding of `Map.set`: replace the binding when the key is present, or append. -/
def mapSet (m : List (String × ProviderAuth)) (key : String)
    (v : ProviderAuth) : List (String × ProviderAuth) :=
  if mapHas m key then
    m.map fun kv => if kv.1 = key then (key, v) else kv
  else m ++ [(key, v)]

/-- One iteration of the skills loop: install an OpenAI key from a skill
whose name contains `openai`, unless one is already present. -/
def skillStep (m : List (String × ProviderAuth))
    (entry : String × SkillConfig) : List (String × ProviderAuth) :=
  if containsSubstr entry.1 "openai" && jsTruthy entry.2.apiKey then
    if ! mapHas m "openai" then
      mapSet m "openai"
        { provider := "openai", profileName := entry.1, token := none,
          apiKey := entry.2.apiKey }
    else m
  else m

/-- Embedding of `loadAuthProfiles`: keychain first, then environment
and files for Anthropic; then the Clawdbot skills and the OpenAI
environment variable for OpenAI. -/
def loadAuthProfiles (w : World) : List (String × ProviderAuth) :=
  let map0 : List (String × ProviderAuth) := []
  let map1 :=
    match getAnthropicTokenFromKeychain w with
    | some keychainToken =>
      mapSet map0 "anthropic"
        { provider := "anthropic", profileName := "keychain",
          token := some keychainToken, apiKey := none }
    | none => map0
  let map2 :=
    if ! mapHas map1 "anthropic" then
      match getAnthropicTokenFromEnvOrFiles w with
      | some envToken =>
        if ! (envToken == "") then
          mapSet map1 "anthropic"
            { provider := "anthropic", profileName := "env",
              token := some envToken, apiKey := none }
        else map1
      | none => map1
    else map1
  let map3 :=
    match w.clawdbotConfig with
    | some config => config.skillsEntries.foldl skillStep map2
    | none => map2
  let map4 :=
    if (! mapHas map3 "openai") && jsTruthy w.envOpenaiApiKey then
      mapSet map3 "openai"
        { provider := "openai", profileName := "env", token := none,
          apiKey := w.envOpenaiApiKey }
    else map3
  map4

/-- Embedding of `getAuth` with the module-level `authCache` made
explicit: given the cache state, return the provider entry and the new
cache state (load once when the cache is empty). -/
def getAuthS (w : World) (cache : Option (List (String × ProviderAuth)))
    (provider : String) :
    Option ProviderAuth × Option (List (String × ProviderAuth)) :=
  match cache with
  | some m => (mapLookup m provider, some m)
  | none =>
    let m := loadAuthProfiles w
    (mapLookup m provider, some m)

/-- Embedding of `reloadAuth`: clear the cache. -/
def reloadAuth (_cache : Option (List (String × ProviderAuth))) :
    Option (List (String × ProviderAuth)) := none

/-- A small concrete configuration used to instantiate theorems: only
the token-count dimension is weighted and all keyword lists are empty. -/
def cfgBase : ScoringConfig where
  dimensionWeights := [("tokenCount", 1)]
  codeKeywords := []
  reasoningKeywords := []
  technicalKeywords := []
  creativeKeywords := []
  simpleKeywords := []
  imperativeVerbs := []
  constraintIndicators := []
  outputFormatKeywords := []
  referenceKeywords := []
  negationKeywords := []
  domainSpecificKeywords := []
  agenticTaskKeywords := []
  tokenCountThresholds := ⟨100, 100000⟩
  tierBoundaries := ⟨0.5, 1.5, 2.5⟩
  confidenceSteepness := 2
  confidenceThreshold := 0.7

/-- On a quick-match hit, `classifyByRules` returns the fast-path
record. -/
theorem classify_fast {p : String} {t : Tier} {c : ℚ}
    (sp : Option String) (n : ℕ) (cfg : ScoringConfig)
    (h : quickPatternMatch (toLowerCase p) = some (t, c)) :
    classifyByRules p sp n cfg =
      { score := 0, tier := some t, confidence := (c : ℝ),
        signals := ["quick-match: " ++ tierToString t], agenticScore := 0 } := by
  simp only [classifyByRules, h]

/-- When no quick pattern matches, `classifyByRules` is the
weighted-scoring path. -/
theorem classify_slow {p : String} (sp : Option String) (n : ℕ)
    (cfg : ScoringConfig) (h : quickPatternMatch (toLowerCase p) = none) :
    classifyByRules p sp n cfg = weightedPath p sp n cfg := by
  simp only [classifyByRules, h]

/-- The reasoning-override branch of the weighted path. -/
theorem weightedPath_override {p : String} (sp : Option String) (n : ℕ)
    (cfg : ScoringConfig) (h : 2 ≤ (reasoningMatchesOf p cfg).length) :
    weightedPath p sp n cfg =
      { score := weightedScoreOf p sp n cfg, tier := some .REASONING,
        confidence :=
          max (calibrateConfidence (max (weightedScoreOf p sp n cfg) 0.3)
            cfg.confidenceSteepness) 0.85,
        signals := signalsOf p sp n cfg,
        agenticScore := agenticScoreOf p sp cfg } := by
  simp only [weightedPath, ge_iff_le, if_pos h]

/-- The ambiguous branch of the weighted path: fewer than two reasoning
matches and confidence below the threshold. -/
theorem weightedPath_ambiguous {p : String} (sp : Option String) (n : ℕ)
    (cfg : ScoringConfig) (h : ¬ 2 ≤ (reasoningMatchesOf p cfg).length)
    (hc : slowConfidence p sp n cfg < (cfg.confidenceThreshold : ℝ)) :
    weightedPath p sp n cfg =
      { score := weightedScoreOf p sp n cfg, tier := none,
        confidence := slowConfidence p sp n cfg,
        signals := signalsOf p sp n cfg,
        agenticScore := agenticScoreOf p sp cfg } := by
  simp only [weightedPath, ge_iff_le, if_neg h, if_pos hc]

/-- The confident branch of the weighted path: fewer than two reasoning
matches and confidence at or above the threshold. -/
theorem weightedPath_confident {p : String} (sp : Option String) (n : ℕ)
    (cfg : ScoringConfig) (h : ¬ 2 ≤ (reasoningMatchesOf p cfg).length)
    (hc : ¬ slowConfidence p sp n cfg < (cfg.confidenceThreshold : ℝ)) :
    weightedPath p sp n cfg =
      { score := weightedScoreOf p sp n cfg,
        tier := some (codeTier cfg.tierBoundaries (weightedScoreOf p sp n cfg)),
        confidence := slowConfidence p sp n cfg,
        signals := signalsOf p sp n cfg,
        agenticScore := agenticScoreOf p sp cfg } := by
  simp only [weightedPath, ge_iff_le, if_neg h, if_neg hc]

/-- Every branch of the weighted path reports the weighted score. -/
theorem weightedPath_score (p : String) (sp : Option String) (n : ℕ)
    (cfg : ScoringConfig) :
    (weightedPath p sp n cfg).score = weightedScoreOf p sp n cfg := by
  simp only [weightedPath]
  split
  · rfl
  · split <;> rfl

/-- Every branch of the weighted path reports the collected signals. -/
theorem weightedPath_signals (p : String) (sp : Option String) (n : ℕ)
    (cfg : ScoringConfig) :
    (weightedPath p sp n cfg).signals = signalsOf p sp n cfg := by
  simp only [weightedPath]
  split
  · rfl
  · split <;> rfl

/-- Every branch of the weighted path reports the agentic score. -/
theorem weightedPath_agentic (p : String) (sp : Option String) (n : ℕ)
    (cfg : ScoringConfig) :
    (weightedPath p sp n cfg).agenticScore = agenticScoreOf p sp cfg := by
  simp only [weightedPath]
  split
  · rfl
  · split <;> rfl

/-- The fast path only ever returns one of the four fixed confidences,
each between 0.80 and 0.95. -/
theorem quickPatternMatch_conf_bounds {u : String} {t : Tier} {c : ℚ}
    (h : quickPatternMatch u = some (t, c)) : 0.8 ≤ c ∧ c ≤ 0.95 := by
  simp only [quickPatternMatch] at h
  split_ifs at h <;> simp_all <;> rw [← h.2] <;> norm_num

/-- The sigmoid calibration is always strictly below 1. -/
theorem calibrateConfidence_lt_one (d k : ℚ) : calibrateConfidence d k < 1 := by
  unfold calibrateConfidence
  have he : (0 : ℝ) < Real.exp (-(k : ℝ) * (d : ℝ)) := Real.exp_pos _
  rw [div_lt_one (by linarith)]
  linarith

/-- The sigmoid calibration is always strictly positive. -/
theorem calibrateConfidence_pos (d k : ℚ) : 0 < calibrateConfidence d k := by
  unfold calibrateConfidence
  have he : (0 : ℝ) < Real.exp (-(k : ℝ) * (d : ℝ)) := Real.exp_pos _
  positivity

/-- For a nonnegative distance and positive steepness the sigmoid is at
least one half. -/
theorem calibrateConfidence_ge_half {d k : ℚ} (hd : 0 ≤ d) (hk : 0 < k) :
    (1 / 2 : ℝ) ≤ calibrateConfidence d k := by
  unfold calibrateConfidence
  have harg : -(k : ℝ) * (d : ℝ) ≤ 0 := by
    have hk' : (0 : ℝ) ≤ (k : ℝ) := by exact_mod_cast hk.le
    have hd' : (0 : ℝ) ≤ (d : ℝ) := by exact_mod_cast hd
    nlinarith
  have he : Real.exp (-(k : ℝ) * (d : ℝ)) ≤ 1 := by
    calc Real.exp (-(k : ℝ) * (d : ℝ)) ≤ Real.exp 0 := Real.exp_le_exp.mpr harg
    _ = 1 := Real.exp_zero
  have hepos : (0 : ℝ) < Real.exp (-(k : ℝ) * (d : ℝ)) := Real.exp_pos _
  rw [div_le_div_iff₀ (by norm_num) (by linarith)]
  linarith

/-- The boundary distance computed by the `if`-chain is never
negative. -/
theorem codeDistance_nonneg (b : TierBoundaries) (s : ℚ) :
    0 ≤ codeDistance b s := by
  unfold codeDistance
  split_ifs with h1 h2 h3
  · linarith
  · rcases le_total (s - b.simpleMedium) (b.mediumComplex - s) with h | h <;>
      simp [min_def, h] <;> linarith
  · rcases le_total (s - b.mediumComplex) (b.complexReasoning - s) with h | h <;>
      simp [min_def, h] <;> linarith
  · linarith

/-- Configuration with reasoning keywords, for instantiating the
reasoning-override claims. -/
def cfgProve : ScoringConfig := { cfgBase with reasoningKeywords := ["prove", "derive"] }

/-- Configuration with a confidence threshold above the fast-path
confidences. -/
def cfgThr96 : ScoringConfig := { cfgBase with confidenceThreshold := 0.96 }

/-- Configuration with agentic keywords, for the system-prompt
noninterference claims. -/
def cfgAg : ScoringConfig := { cfgBase with agenticTaskKeywords := ["alpha", "beta"] }

/-- A prompt longer than twenty characters matching none of the
fast-path patterns, used to exercise the weighted-scoring path. -/
def longPrompt : String := "summarize the meeting notes for quarterly review please"

/-- C1 counterexample: the claim fails on the empty string (the regex
`^.{1,20}$` requires at least one character, so the empty prompt falls
through to weighted scoring and does not produce the quick-match
signals) and on a short prompt containing a newline (the regex `.` does
not match line terminators). -/
theorem C1_counterexample :
    ((jsTrim (toLowerCase "")).length ≤ 20 ∧
      (classifyByRules "" none 100 cfgBase).signals ≠ ["quick-match: SIMPLE"]) ∧
    ((jsTrim (toLowerCase "one\ntwo")).length ≤ 20 ∧
      (classifyByRules "one\ntwo" none 100 cfgBase).signals ≠
        ["quick-match: SIMPLE"]) := by
  refine ⟨⟨by decide, ?_⟩, ⟨by decide, ?_⟩⟩
  · rw [classify_slow none 100 cfgBase (by decide), weightedPath_signals]
    decide
  · rw [classify_slow none 100 cfgBase (by decide), weightedPath_signals]
    decide

/-- C1 (amended): for every user text whose lowercased trimmed form has
between 1 and 20 characters, none of them a line terminator,
`classifyByRules` returns tier SIMPLE with confidence 0.95 via the fast
path (a quick-match result with score 0 and agentic score 0). -/
theorem C1_amended (prompt : String) (sp : Option String) (n : ℕ)
    (cfg : ScoringConfig)
    (h1 : 1 ≤ (jsTrim (toLowerCase prompt)).length)
    (h2 : (jsTrim (toLowerCase prompt)).length ≤ 20)
    (h3 : ∀ c ∈ (jsTrim (toLowerCase prompt)).data, isLineTerm c = false) :
    classifyByRules prompt sp n cfg =
      { score := 0, tier := some .SIMPLE, confidence := ((0.95 : ℚ) : ℝ),
        signals := ["quick-match: SIMPLE"], agenticScore := 0 } := by
  have h7 : simplePat7 ((jsTrim (toLowerCase prompt))) = true := by
    simp only [simplePat7, Bool.and_eq_true, decide_eq_true_eq, List.all_eq_true]
    refine ⟨⟨h1, h2⟩, ?_⟩
    intro c hc
    simp [h3 c hc]
  have hany : SIMPLE_PATTERNS.any (fun pt => pt ((jsTrim (toLowerCase prompt)))) = true := by
    rw [List.any_eq_true]
    exact ⟨simplePat7, by simp [SIMPLE_PATTERNS], h7⟩
  have hq : quickPatternMatch (toLowerCase prompt) = some (.SIMPLE, 0.95) := by
    simp only [quickPatternMatch, hany, if_true]
  rw [classify_fast sp n cfg hq]
  rfl

/-- Witness for the amended C1 at a concrete 18-character prompt. -/
theorem C1_amended_witness :
    (1 ≤ (jsTrim (toLowerCase "Hello there friend")).length ∧
      (jsTrim (toLowerCase "Hello there friend")).length ≤ 20 ∧
      (∀ c ∈ (jsTrim (toLowerCase "Hello there friend")).data, isLineTerm c = false)) ∧
    classifyByRules "Hello there friend" none 5 cfgBase =
      { score := 0, tier := some .SIMPLE, confidence := ((0.95 : ℚ) : ℝ),
        signals := ["quick-match: SIMPLE"], agenticScore := 0 } :=
  ⟨⟨by decide, by decide, by decide⟩,
    C1_amended "Hello there friend" none 5 cfgBase (by decide) (by decide)
      (by decide)⟩

/-- Two distinct members of a list force its length to be at least
two. -/
theorem two_le_length_of_mem_ne {α : Type} [DecidableEq α] {a b : α}
    {l : List α} (ha : a ∈ l) (hb : b ∈ l) (hne : a ≠ b) : 2 ≤ l.length := by
  have hb' : b ∈ l.erase a := (List.mem_erase_of_ne (Ne.symm hne)).mpr hb
  have h1 : 0 < l.length := List.length_pos_of_mem ha
  have h2 : 0 < (l.erase a).length := List.length_pos_of_mem hb'
  have := List.length_erase_of_mem ha
  omega

/-- C2 counterexample: a user text of at most twenty characters that
contains two distinct reasoning keywords is classified SIMPLE by the
fast path, not REASONING. -/
theorem C2_counterexample :
    "prove" ∈ cfgProve.reasoningKeywords ∧
    "derive" ∈ cfgProve.reasoningKeywords ∧
    ("prove" : String) ≠ "derive" ∧
    containsSubstr (toLowerCase "prove and derive x") (toLowerCase "prove") = true ∧
    containsSubstr (toLowerCase "prove and derive x") (toLowerCase "derive") = true ∧
    (classifyByRules "prove and derive x" none 5 cfgProve).tier = some Tier.SIMPLE ∧
    (classifyByRules "prove and derive x" none 5 cfgProve).tier ≠
      some Tier.REASONING := by
  have hq : quickPatternMatch (toLowerCase "prove and derive x") =
      some (.SIMPLE, 0.95) := by
    have h : SIMPLE_PATTERNS.any
        (fun pt => pt (jsTrim (toLowerCase "prove and derive x"))) = true := by
      decide
    simp [quickPatternMatch, h]
  rw [classify_fast none 5 cfgProve hq]
  refine ⟨by decide, by decide, by decide, by decide, by decide, rfl, by simp⟩

/-- C2 (amended): when no fast-path pattern matches, an input containing
two distinct reasoning keywords of the configuration is forced to tier
REASONING with confidence at least 0.85. -/
theorem C2_amended (prompt : String) (sp : Option String) (n : ℕ)
    (cfg : ScoringConfig) (k1 k2 : String)
    (hfast : quickPatternMatch (toLowerCase prompt) = none)
    (hk1 : k1 ∈ cfg.reasoningKeywords) (hk2 : k2 ∈ cfg.reasoningKeywords)
    (hne : k1 ≠ k2)
    (hc1 : containsSubstr (toLowerCase prompt) (toLowerCase k1) = true)
    (hc2 : containsSubstr (toLowerCase prompt) (toLowerCase k2) = true) :
    (classifyByRules prompt sp n cfg).tier = some Tier.REASONING ∧
    (0.85 : ℝ) ≤ (classifyByRules prompt sp n cfg).confidence := by
  have hlen : 2 ≤ (reasoningMatchesOf prompt cfg).length := by
    apply two_le_length_of_mem_ne (a := k1) (b := k2) _ _ hne
    · exact List.mem_filter.mpr ⟨hk1, hc1⟩
    · exact List.mem_filter.mpr ⟨hk2, hc2⟩
  rw [classify_slow sp n cfg hfast, weightedPath_override sp n cfg hlen]
  exact ⟨rfl, le_max_right _ _⟩

/-- Witness for the amended C2: a long prompt containing `prove` and
`derive` only as fragments of larger words, so that no fast-path pattern
(in particular no reasoning word with a `\b` boundary) matches. -/
theorem C2_amended_witness :
    (quickPatternMatch
        (toLowerCase
          "proverbs that derives something interesting for analysis purposes okay") =
      none ∧
      "prove" ∈ cfgProve.reasoningKeywords ∧
      "derive" ∈ cfgProve.reasoningKeywords) ∧
    (classifyByRules
        "proverbs that derives something interesting for analysis purposes okay"
        none 40 cfgProve).tier = some Tier.REASONING ∧
    (0.85 : ℝ) ≤
      (classifyByRules
        "proverbs that derives something interesting for analysis purposes okay"
        none 40 cfgProve).confidence :=
  ⟨⟨by decide, by decide, by decide⟩,
    C2_amended
      "proverbs that derives something interesting for analysis purposes okay"
      none 40 cfgProve "prove" "derive" (by decide) (by decide) (by decide)
      (by decide) (by decide) (by decide)⟩

/-- C3 counterexample: with a confidence threshold of 0.96 the fast path
still returns tier SIMPLE with confidence 0.95, which is below the
threshold — the quick-match results are never checked against
`confidenceThreshold`. -/
theorem C3_counterexample :
    (classifyByRules "hi" none 1 cfgThr96).tier ≠ none ∧
    (classifyByRules "hi" none 1 cfgThr96).confidence <
      (cfgThr96.confidenceThreshold : ℝ) := by
  have hq : quickPatternMatch (toLowerCase "hi") = some (.SIMPLE, 0.95) := by
    have h : SIMPLE_PATTERNS.any (fun pt => pt (jsTrim (toLowerCase "hi"))) = true := by
      decide
    simp [quickPatternMatch, h]
  rw [classify_fast none 1 cfgThr96 hq]
  constructor
  · simp
  · show ((0.95 : ℚ) : ℝ) < ((cfgThr96.confidenceThreshold : ℚ) : ℝ)
    have : (0.95 : ℚ) < cfgThr96.confidenceThreshold := by
      norm_num [cfgThr96, cfgBase]
    exact_mod_cast this

/-- C3 (amended): for configurations whose confidence threshold is at
most 0.80 (the least fast-path confidence), every result with a non-null
tier has confidence at least the threshold. -/
theorem C3_amended (p : String) (sp : Option String) (n : ℕ)
    (cfg : ScoringConfig) (hthr : cfg.confidenceThreshold ≤ 0.8)
    (hne : (classifyByRules p sp n cfg).tier ≠ none) :
    (cfg.confidenceThreshold : ℝ) ≤ (classifyByRules p sp n cfg).confidence := by
  cases hq : quickPatternMatch (toLowerCase p) with
  | some tc =>
    obtain ⟨t, c⟩ := tc
    rw [classify_fast sp n cfg hq]
    have hc : (0.8 : ℚ) ≤ c := (quickPatternMatch_conf_bounds hq).1
    show ((cfg.confidenceThreshold : ℚ) : ℝ) ≤ ((c : ℚ) : ℝ)
    exact_mod_cast le_trans hthr hc
  | none =>
    rw [classify_slow sp n cfg hq] at hne ⊢
    by_cases hrm : 2 ≤ (reasoningMatchesOf p cfg).length
    · rw [weightedPath_override sp n cfg hrm]
      have h1 : ((cfg.confidenceThreshold : ℚ) : ℝ) ≤ (0.85 : ℝ) := by
        have h2 : (cfg.confidenceThreshold : ℚ) ≤ (0.85 : ℚ) :=
          le_trans hthr (by norm_num)
        calc ((cfg.confidenceThreshold : ℚ) : ℝ) ≤ ((0.85 : ℚ) : ℝ) := by
              exact_mod_cast h2
          _ = (0.85 : ℝ) := by norm_num
      exact le_trans h1 (le_max_right _ _)
    · by_cases hc : slowConfidence p sp n cfg < (cfg.confidenceThreshold : ℝ)
      · rw [weightedPath_ambiguous sp n cfg hrm hc] at hne
        simp at hne
      · rw [weightedPath_confident sp n cfg hrm hc]
        exact not_lt.mp hc

/-- Witness for the amended C3 at the default-style threshold 0.7 and a
fast-path prompt. -/
theorem C3_amended_witness :
    (cfgBase.confidenceThreshold ≤ 0.8 ∧
      (classifyByRules "hi" none 1 cfgBase).tier ≠ none) ∧
    (cfgBase.confidenceThreshold : ℝ) ≤
      (classifyByRules "hi" none 1 cfgBase).confidence := by
  have hq : quickPatternMatch (toLowerCase "hi") = some (.SIMPLE, 0.95) := by
    have h : SIMPLE_PATTERNS.any (fun pt => pt (jsTrim (toLowerCase "hi"))) = true := by
      decide
    simp [quickPatternMatch, h]
  have hne : (classifyByRules "hi" none 1 cfgBase).tier ≠ none := by
    rw [classify_fast none 1 cfgBase hq]
    simp
  exact ⟨⟨by norm_num [cfgBase], hne⟩,
    C3_amended "hi" none 1 cfgBase (by norm_num [cfgBase]) hne⟩

/-- C4: for positive steepness and ordered boundaries, every confidence
reported by `classifyByRules` lies in the interval [0.5, 1]. -/
theorem C4_confidence_range (p : String) (sp : Option String) (n : ℕ)
    (cfg : ScoringConfig) (hk : 0 < cfg.confidenceSteepness)
    (_hb1 : cfg.tierBoundaries.simpleMedium < cfg.tierBoundaries.mediumComplex)
    (_hb2 : cfg.tierBoundaries.mediumComplex < cfg.tierBoundaries.complexReasoning) :
    (0.5 : ℝ) ≤ (classifyByRules p sp n cfg).confidence ∧
      (classifyByRules p sp n cfg).confidence ≤ 1 := by
  cases hq : quickPatternMatch (toLowerCase p) with
  | some tc =>
    obtain ⟨t, c⟩ := tc
    rw [classify_fast sp n cfg hq]
    obtain ⟨hlo, hhi⟩ := quickPatternMatch_conf_bounds hq
    constructor
    · have h : (0.5 : ℚ) ≤ c := le_trans (by norm_num) hlo
      calc (0.5 : ℝ) = ((0.5 : ℚ) : ℝ) := by norm_num
        _ ≤ ((c : ℚ) : ℝ) := by exact_mod_cast h
    · show ((c : ℚ) : ℝ) ≤ 1
      have h : c ≤ (1 : ℚ) := le_trans hhi (by norm_num)
      exact_mod_cast h
  | none =>
    rw [classify_slow sp n cfg hq]
    by_cases hrm : 2 ≤ (reasoningMatchesOf p cfg).length
    · rw [weightedPath_override sp n cfg hrm]
      constructor
      · exact le_trans (by norm_num) (le_max_right _ _)
      · exact max_le (calibrateConfidence_lt_one _ _).le (by norm_num)
    · have hhalf : (0.5 : ℝ) ≤ slowConfidence p sp n cfg := by
        have := calibrateConfidence_ge_half
          (codeDistance_nonneg cfg.tierBoundaries
            (weightedScoreOf p sp n cfg)) hk
        unfold slowConfidence
        linarith
      have hone : slowConfidence p sp n cfg ≤ 1 := by
        unfold slowConfidence
        exact (calibrateConfidence_lt_one _ _).le
      by_cases hc : slowConfidence p sp n cfg < (cfg.confidenceThreshold : ℝ)
      · rw [weightedPath_ambiguous sp n cfg hrm hc]
        exact ⟨hhalf, hone⟩
      · rw [weightedPath_confident sp n cfg hrm hc]
        exact ⟨hhalf, hone⟩

/-- Witness for C4 at a concrete configuration and prompt. -/
theorem C4_confidence_range_witness :
    (0 < cfgBase.confidenceSteepness ∧
      cfgBase.tierBoundaries.simpleMedium < cfgBase.tierBoundaries.mediumComplex ∧
      cfgBase.tierBoundaries.mediumComplex <
        cfgBase.tierBoundaries.complexReasoning) ∧
    (0.5 : ℝ) ≤ (classifyByRules "hi" none 1 cfgBase).confidence ∧
      (classifyByRules "hi" none 1 cfgBase).confidence ≤ 1 :=
  ⟨⟨by norm_num [cfgBase], by norm_num [cfgBase], by norm_num [cfgBase]⟩,
    C4_confidence_range "hi" none 1 cfgBase (by norm_num [cfgBase])
      (by norm_num [cfgBase]) (by norm_num [cfgBase])⟩

/-- Follows the spec text (Stage D boundary mapping): the tier assigned
to a weighted score by the interval table of the specification. -/
def specTier (b : TierBoundaries) (s : ℚ) : Tier :=
  if s < b.simpleMedium then .SIMPLE
  else if b.simpleMedium ≤ s ∧ s < b.mediumComplex then .MEDIUM
  else if b.mediumComplex ≤ s ∧ s < b.complexReasoning then .COMPLEX
  else .REASONING

/-- Follows the spec text (Stage D boundary mapping): the boundary
distance assigned to a weighted score by the interval table of the
specification. -/
def specDistance (b : TierBoundaries) (s : ℚ) : ℚ :=
  if s < b.simpleMedium then b.simpleMedium - s
  else if b.simpleMedium ≤ s ∧ s < b.mediumComplex then
    min (s - b.simpleMedium) (b.mediumComplex - s)
  else if b.mediumComplex ≤ s ∧ s < b.complexReasoning then
    min (s - b.mediumComplex) (b.complexReasoning - s)
  else s - b.complexReasoning

/-- The spec's interval table agrees with the code's `if`-chain tier. -/
theorem specTier_eq_codeTier (b : TierBoundaries) (s : ℚ) :
    specTier b s = codeTier b s := by
  unfold specTier codeTier
  rcases lt_or_le s b.simpleMedium with h1 | h1
  · rw [if_pos h1, if_pos h1]
  · rcases lt_or_le s b.mediumComplex with h2 | h2
    · rw [if_neg (not_lt.mpr h1), if_neg (not_lt.mpr h1), if_pos ⟨h1, h2⟩,
        if_pos h2]
    · rcases lt_or_le s b.complexReasoning with h3 | h3
      · rw [if_neg (not_lt.mpr h1), if_neg (not_lt.mpr h1),
          if_neg (fun h => absurd h.2 (not_lt.mpr h2)), if_neg (not_lt.mpr h2),
          if_pos ⟨h2, h3⟩, if_pos h3]
      · rw [if_neg (not_lt.mpr h1), if_neg (not_lt.mpr h1),
          if_neg (fun h => absurd h.2 (not_lt.mpr h2)), if_neg (not_lt.mpr h2),
          if_neg (fun h => absurd h.2 (not_lt.mpr h3)), if_neg (not_lt.mpr h3)]

/-- The spec's interval table agrees with the code's `if`-chain
distance. -/
theorem specDistance_eq_codeDistance (b : TierBoundaries) (s : ℚ) :
    specDistance b s = codeDistance b s := by
  unfold specDistance codeDistance
  rcases lt_or_le s b.simpleMedium with h1 | h1
  · rw [if_pos h1, if_pos h1]
  · rcases lt_or_le s b.mediumComplex with h2 | h2
    · rw [if_neg (not_lt.mpr h1), if_neg (not_lt.mpr h1), if_pos ⟨h1, h2⟩,
        if_pos h2]
    · rcases lt_or_le s b.complexReasoning with h3 | h3
      · rw [if_neg (not_lt.mpr h1), if_neg (not_lt.mpr h1),
          if_neg (fun h => absurd h.2 (not_lt.mpr h2)), if_neg (not_lt.mpr h2),
          if_pos ⟨h2, h3⟩, if_pos h3]
      · rw [if_neg (not_lt.mpr h1), if_neg (not_lt.mpr h1),
          if_neg (fun h => absurd h.2 (not_lt.mpr h2)), if_neg (not_lt.mpr h2),
          if_neg (fun h => absurd h.2 (not_lt.mpr h3)), if_neg (not_lt.mpr h3)]

/-- C5: on the weighted-scoring path the classifier maps the weighted
score to a tier and a boundary distance exactly as the specification's
interval table prescribes: the reported confidence is the sigmoid of the
spec's distance, and any non-null reported tier is the spec's tier. -/
theorem C5_boundary_mapping (p : String) (sp : Option String) (n : ℕ)
    (cfg : ScoringConfig)
    (hfast : quickPatternMatch (toLowerCase p) = none)
    (hrm : (reasoningMatchesOf p cfg).length < 2)
    (_hb1 : cfg.tierBoundaries.simpleMedium < cfg.tierBoundaries.mediumComplex)
    (_hb2 : cfg.tierBoundaries.mediumComplex <
      cfg.tierBoundaries.complexReasoning) :
    (classifyByRules p sp n cfg).score = weightedScoreOf p sp n cfg ∧
    (classifyByRules p sp n cfg).confidence =
      calibrateConfidence
        (specDistance cfg.tierBoundaries (weightedScoreOf p sp n cfg))
        cfg.confidenceSteepness ∧
    ∀ t, (classifyByRules p sp n cfg).tier = some t →
      t = specTier cfg.tierBoundaries (weightedScoreOf p sp n cfg) := by
  have hrm' : ¬ 2 ≤ (reasoningMatchesOf p cfg).length := by omega
  rw [classify_slow sp n cfg hfast, specDistance_eq_codeDistance,
    specTier_eq_codeTier]
  by_cases hc : slowConfidence p sp n cfg < (cfg.confidenceThreshold : ℝ)
  · rw [weightedPath_ambiguous sp n cfg hrm' hc]
    refine ⟨rfl, ?_, ?_⟩
    · unfold slowConfidence
      rfl
    · intro t ht
      simp at ht
  · rw [weightedPath_confident sp n cfg hrm' hc]
    refine ⟨rfl, ?_, ?_⟩
    · unfold slowConfidence
      rfl
    · intro t ht
      simp only [Option.some.injEq] at ht
      exact ht.symm

/-- Witness for C5 at a weighted-path prompt and the base
configuration. -/
theorem C5_boundary_mapping_witness :
    (quickPatternMatch (toLowerCase longPrompt) = none ∧
      (reasoningMatchesOf longPrompt cfgBase).length < 2 ∧
      cfgBase.tierBoundaries.simpleMedium < cfgBase.tierBoundaries.mediumComplex ∧
      cfgBase.tierBoundaries.mediumComplex <
        cfgBase.tierBoundaries.complexReasoning) ∧
    ((classifyByRules longPrompt none 30 cfgBase).score =
      weightedScoreOf longPrompt none 30 cfgBase ∧
    (classifyByRules longPrompt none 30 cfgBase).confidence =
      calibrateConfidence
        (specDistance cfgBase.tierBoundaries
          (weightedScoreOf longPrompt none 30 cfgBase))
        cfgBase.confidenceSteepness ∧
    ∀ t, (classifyByRules longPrompt none 30 cfgBase).tier = some t →
      t = specTier cfgBase.tierBoundaries
        (weightedScoreOf longPrompt none 30 cfgBase)) :=
  ⟨⟨by decide, by decide, by norm_num [cfgBase], by norm_num [cfgBase]⟩,
    C5_boundary_mapping longPrompt none 30 cfgBase (by decide) (by decide)
      (by norm_num [cfgBase]) (by norm_num [cfgBase])⟩

/-- C6: on the weighted-scoring path the tier is null exactly when the
calibrated confidence falls below the configured threshold, and the
remaining fields (score, confidence, signals, agentic score) are the
same values the confident branch reports. -/
theorem C6_threshold_nulling (p : String) (sp : Option String) (n : ℕ)
    (cfg : ScoringConfig)
    (hfast : quickPatternMatch (toLowerCase p) = none)
    (hrm : (reasoningMatchesOf p cfg).length < 2) :
    ((classifyByRules p sp n cfg).tier = none ↔
      (classifyByRules p sp n cfg).confidence < (cfg.confidenceThreshold : ℝ)) ∧
    (classifyByRules p sp n cfg).score = weightedScoreOf p sp n cfg ∧
    (classifyByRules p sp n cfg).confidence = slowConfidence p sp n cfg ∧
    (classifyByRules p sp n cfg).signals = signalsOf p sp n cfg ∧
    (classifyByRules p sp n cfg).agenticScore = agenticScoreOf p sp cfg := by
  have hrm' : ¬ 2 ≤ (reasoningMatchesOf p cfg).length := by omega
  rw [classify_slow sp n cfg hfast]
  by_cases hc : slowConfidence p sp n cfg < (cfg.confidenceThreshold : ℝ)
  · rw [weightedPath_ambiguous sp n cfg hrm' hc]
    exact ⟨by simp [hc], rfl, rfl, rfl, rfl⟩
  · rw [weightedPath_confident sp n cfg hrm' hc]
    exact ⟨by simp [hc], rfl, rfl, rfl, rfl⟩

/-- Witness for C6 at a weighted-path prompt and the base
configuration. -/
theorem C6_threshold_nulling_witness :
    (quickPatternMatch (toLowerCase longPrompt) = none ∧
      (reasoningMatchesOf longPrompt cfgBase).length < 2) ∧
    ((classifyByRules longPrompt none 50 cfgBase).tier = none ↔
      (classifyByRules longPrompt none 50 cfgBase).confidence <
        (cfgBase.confidenceThreshold : ℝ)) ∧
    (classifyByRules longPrompt none 50 cfgBase).score =
      weightedScoreOf longPrompt none 50 cfgBase ∧
    (classifyByRules longPrompt none 50 cfgBase).confidence =
      slowConfidence longPrompt none 50 cfgBase ∧
    (classifyByRules longPrompt none 50 cfgBase).signals =
      signalsOf longPrompt none 50 cfgBase ∧
    (classifyByRules longPrompt none 50 cfgBase).agenticScore =
      agenticScoreOf longPrompt none cfgBase :=
  ⟨⟨by decide, by decide⟩,
    C6_threshold_nulling longPrompt none 50 cfgBase (by decide) (by decide)⟩

/-- The agentic keyword matches of a run: the keywords of the
configuration found in the concatenated system+user text (the list the
agentic scorer is a function of). -/
def agenticMatchesOf (p : String) (sp : Option String)
    (cfg : ScoringConfig) : List String :=
  cfg.agenticTaskKeywords.filter fun kw =>
    containsSubstr (fullTextOf sp p) (toLowerCase kw)

/-- The agentic scorer depends on the full text only through its matched
keyword list. -/
theorem scoreAgenticTask_congr {t1 t2 : String} (kws : List String)
    (h : (kws.filter fun kw => containsSubstr t1 (toLowerCase kw)) =
      (kws.filter fun kw => containsSubstr t2 (toLowerCase kw))) :
    scoreAgenticTask t1 kws = scoreAgenticTask t2 kws := by
  simp only [scoreAgenticTask, h]

/-- C7 counterexample: two runs differing only in the system prompt have
the same number of agentic keyword matches (one each), yet the results
differ because the matched keyword is reported in the signal string. -/
theorem C7_counterexample :
    (agenticMatchesOf longPrompt (some "alpha") cfgAg).length =
      (agenticMatchesOf longPrompt (some "beta") cfgAg).length ∧
    classifyByRules longPrompt (some "alpha") 100 cfgAg ≠
      classifyByRules longPrompt (some "beta") 100 cfgAg := by
  constructor
  · decide
  · intro heq
    have h1 : (classifyByRules longPrompt (some "alpha") 100 cfgAg).signals =
        ["agentic-light (alpha)"] := by
      rw [classify_slow (some "alpha") 100 cfgAg (by decide),
        weightedPath_signals]
      decide
    have h2 : (classifyByRules longPrompt (some "beta") 100 cfgAg).signals =
        ["agentic-light (beta)"] := by
      rw [classify_slow (some "beta") 100 cfgAg (by decide),
        weightedPath_signals]
      decide
    rw [heq, h2] at h1
    exact absurd h1 (by decide)

/-- C7 (amended): the fast-path outcome never depends on the system
prompt, and two runs agreeing on the list of matched agentic keywords
(not merely their number) produce identical results. -/
theorem C7_amended (p : String) (sp1 sp2 : Option String) (n : ℕ)
    (cfg : ScoringConfig)
    (h : (quickPatternMatch (toLowerCase p)).isSome = true ∨
      agenticMatchesOf p sp1 cfg = agenticMatchesOf p sp2 cfg) :
    classifyByRules p sp1 n cfg = classifyByRules p sp2 n cfg := by
  cases hq : quickPatternMatch (toLowerCase p) with
  | some tc =>
    obtain ⟨t, c⟩ := tc
    rw [classify_fast sp1 n cfg hq, classify_fast sp2 n cfg hq]
  | none =>
    rcases h with h | h
    · rw [hq] at h
      simp at h
    · rw [classify_slow sp1 n cfg hq, classify_slow sp2 n cfg hq]
      unfold agenticMatchesOf at h
      have hag : scoreAgenticTask (fullTextOf sp1 p) cfg.agenticTaskKeywords =
          scoreAgenticTask (fullTextOf sp2 p) cfg.agenticTaskKeywords :=
        scoreAgenticTask_congr cfg.agenticTaskKeywords h
      have hdims : allDimensions p sp1 n cfg = allDimensions p sp2 n cfg := by
        unfold allDimensions
        rw [hag]
      have hws : weightedScoreOf p sp1 n cfg = weightedScoreOf p sp2 n cfg := by
        unfold weightedScoreOf
        rw [hdims]
      have hsig : signalsOf p sp1 n cfg = signalsOf p sp2 n cfg := by
        unfold signalsOf
        rw [hdims]
      have hagS : agenticScoreOf p sp1 cfg = agenticScoreOf p sp2 cfg := by
        unfold agenticScoreOf
        rw [hag]
      simp only [weightedPath, slowConfidence, hws, hsig, hagS]

/-- Witness for the amended C7: with no agentic keywords configured both
match lists are empty, and the two runs with different system prompts
coincide. -/
theorem C7_amended_witness :
    ((quickPatternMatch (toLowerCase longPrompt)).isSome = true ∨
      agenticMatchesOf longPrompt (some "x") cfgBase =
        agenticMatchesOf longPrompt (some "y") cfgBase) ∧
    classifyByRules longPrompt (some "x") 30 cfgBase =
      classifyByRules longPrompt (some "y") 30 cfgBase :=
  ⟨Or.inr (by decide),
    C7_amended longPrompt (some "x") (some "y") 30 cfgBase (Or.inr (by decide))⟩

/-- C8: fast-path results carry score 0 and agentic score 0; weighted
results report as agentic score exactly the score of the agenticTask
dimension included in the weighted sum, which is one of 0, 0.2, 0.6,
1.0. -/
theorem C8_agentic_invariant (p : String) (sp : Option String) (n : ℕ)
    (cfg : ScoringConfig) :
    match quickPatternMatch (toLowerCase p) with
    | some _ =>
      (classifyByRules p sp n cfg).score = 0 ∧
        (classifyByRules p sp n cfg).agenticScore = 0
    | none =>
      (classifyByRules p sp n cfg).agenticScore =
        (scoreAgenticTask (fullTextOf sp p) cfg.agenticTaskKeywords).agenticScore ∧
      (scoreAgenticTask (fullTextOf sp p) cfg.agenticTaskKeywords).dimensionScore
        ∈ allDimensions p sp n cfg ∧
      (scoreAgenticTask (fullTextOf sp p)
          cfg.agenticTaskKeywords).dimensionScore.score =
        (classifyByRules p sp n cfg).agenticScore ∧
      ((classifyByRules p sp n cfg).agenticScore = 0 ∨
        (classifyByRules p sp n cfg).agenticScore = 0.2 ∨
        (classifyByRules p sp n cfg).agenticScore = 0.6 ∨
        (classifyByRules p sp n cfg).agenticScore = 1.0) := by
  cases hq : quickPatternMatch (toLowerCase p) with
  | some tc =>
    obtain ⟨t, c⟩ := tc
    rw [classify_fast sp n cfg hq]
    exact ⟨rfl, rfl⟩
  | none =>
    rw [classify_slow sp n cfg hq, weightedPath_agentic]
    refine ⟨rfl, ?_, ?_, ?_⟩
    · unfold allDimensions
      exact List.mem_append_right _ (List.mem_singleton_self _)
    · show (scoreAgenticTask (fullTextOf sp p)
          cfg.agenticTaskKeywords).dimensionScore.score =
        agenticScoreOf p sp cfg
      unfold agenticScoreOf
      simp only [scoreAgenticTask]
      split_ifs <;> rfl
    · show agenticScoreOf p sp cfg = 0 ∨ agenticScoreOf p sp cfg = 0.2 ∨
        agenticScoreOf p sp cfg = 0.6 ∨ agenticScoreOf p sp cfg = 1.0
      unfold agenticScoreOf
      simp only [scoreAgenticTask]
      split_ifs <;> simp

/-- Lookup of a different key is unchanged by the in-place update
branch of `mapSet`. -/
theorem mapLookup_map_update_ne (m : List (String × ProviderAuth))
    (key k : String) (v : ProviderAuth) (h : k ≠ key) :
    mapLookup (m.map fun kv => if kv.1 = key then (key, v) else kv) k =
      mapLookup m k := by
  induction m with
  | nil => rfl
  | cons kv rest ih =>
    obtain ⟨k0, v0⟩ := kv
    simp only [List.map_cons]
    by_cases h0 : k0 = key
    · subst h0
      rw [if_pos rfl]
      simp only [mapLookup]
      rw [if_neg (Ne.symm h), if_neg (Ne.symm h)]
      exact ih
    · rw [if_neg h0]
      simp only [mapLookup]
      by_cases h1 : k0 = k
      · rw [if_pos h1, if_pos h1]
      · rw [if_neg h1, if_neg h1]
        exact ih

/-- Lookup of a different key is unchanged by the append branch of
`mapSet`. -/
theorem mapLookup_append_ne (m : List (String × ProviderAuth))
    (key k : String) (v : ProviderAuth) (h : k ≠ key) :
    mapLookup (m ++ [(key, v)]) k = mapLookup m k := by
  induction m with
  | nil =>
    simp only [List.nil_append, mapLookup]
    rw [if_neg (Ne.symm h)]
  | cons kv rest ih =>
    obtain ⟨k0, v0⟩ := kv
    simp only [List.cons_append, mapLookup]
    by_cases h1 : k0 = k
    · rw [if_pos h1, if_pos h1]
    · rw [if_neg h1, if_neg h1]
      exact ih

/-- Updating one key of the auth map leaves lookups of other keys
unchanged. -/
theorem mapLookup_set_ne (m : List (String × ProviderAuth)) (key k : String)
    (v : ProviderAuth) (h : k ≠ key) :
    mapLookup (mapSet m key v) k = mapLookup m k := by
  unfold mapSet
  split
  · exact mapLookup_map_update_ne m key k v h
  · exact mapLookup_append_ne m key k v h

/-- One skills-loop step never touches the `anthropic` binding. -/
theorem skillStep_anthropic (m : List (String × ProviderAuth))
    (e : String × SkillConfig) :
    mapLookup (skillStep m e) "anthropic" = mapLookup m "anthropic" := by
  unfold skillStep
  split_ifs with h1 h2
  · exact mapLookup_set_ne m "openai" "anthropic" _ (by decide)
  · rfl
  · rfl

/-- The whole skills loop never touches the `anthropic` binding. -/
theorem foldl_skillStep_anthropic (entries : List (String × SkillConfig))
    (m : List (String × ProviderAuth)) :
    mapLookup (entries.foldl skillStep m) "anthropic" =
      mapLookup m "anthropic" := by
  induction entries generalizing m with
  | nil => rfl
  | cons e rest ih => rw [List.foldl_cons, ih, skillStep_anthropic]

/-- A token extracted from a credential file passed a truthiness check,
so it is non-empty. -/
theorem credFileToken_nonempty {f : Option CredFile} {t : String}
    (h : credFileToken f = some t) : (t == "") = false := by
  unfold credFileToken at h
  split at h
  · exact absurd h (by simp)
  · split_ifs at h with h1 h2
    · rw [h] at h1
      simpa [jsTruthy] using h1
    · rw [h] at h2
      simpa [jsTruthy] using h2

/-- The credential-file loop yields only non-empty tokens. -/
theorem firstCredFileToken_nonempty {t : String} :
    ∀ fs, firstCredFileToken fs = some t → (t == "") = false := by
  intro fs
  induction fs with
  | nil => intro h; exact absurd h (by simp [firstCredFileToken])
  | cons f rest ih =>
    intro h
    unfold firstCredFileToken at h
    cases hc : credFileToken f with
    | some u =>
      rw [hc] at h
      obtain rfl : u = t := by simpa using h
      exact credFileToken_nonempty hc
    | none =>
      rw [hc] at h
      exact ih h

/-- Any token produced by `getAnthropicTokenFromEnvOrFiles` passed a
truthiness check, so it is non-empty. -/
theorem envOrFiles_nonempty {w : World} {t : String}
    (h : getAnthropicTokenFromEnvOrFiles w = some t) : (t == "") = false := by
  unfold getAnthropicTokenFromEnvOrFiles at h
  split_ifs at h with h1 h2 h3
  · rw [h] at h1
    simpa [jsTruthy] using h1
  · rw [h] at h2
    simpa [jsTruthy] using h2
  · rw [h] at h3
    simpa [jsTruthy] using h3
  · exact firstCredFileToken_nonempty _ h

/-- C9: `getAuth "anthropic"` (on a cold cache) prefers the Keychain
token whenever the keychain yields a trimmed value starting with
`sk-ant-`; environment variables and credential files are used only when
the keychain lookup fails; when every source fails the provider entry is
absent. -/
theorem C9_keychain_precedence (w : World) :
    match getAnthropicTokenFromKeychain w with
    | some t =>
      (getAuthS w none "anthropic").1 =
        some { provider := "anthropic", profileName := "keychain",
               token := some t, apiKey := none }
    | none =>
      match getAnthropicTokenFromEnvOrFiles w with
      | some t =>
        (getAuthS w none "anthropic").1 =
          some { provider := "anthropic", profileName := "env",
                 token := some t, apiKey := none }
      | none => (getAuthS w none "anthropic").1 = none := by
  have htail : ∀ m : List (String × ProviderAuth),
      mapLookup
        (if (! mapHas (match w.clawdbotConfig with
              | some config => config.skillsEntries.foldl skillStep m
              | none => m) "openai") && jsTruthy w.envOpenaiApiKey then
          mapSet (match w.clawdbotConfig with
              | some config => config.skillsEntries.foldl skillStep m
              | none => m) "openai"
            { provider := "openai", profileName := "env", token := none,
              apiKey := w.envOpenaiApiKey }
        else (match w.clawdbotConfig with
              | some config => config.skillsEntries.foldl skillStep m
              | none => m)) "anthropic" = mapLookup m "anthropic" := by
    intro m
    have h3 : mapLookup (match w.clawdbotConfig with
        | some config => config.skillsEntries.foldl skillStep m
        | none => m) "anthropic" = mapLookup m "anthropic" := by
      cases w.clawdbotConfig with
      | some c => exact foldl_skillStep_anthropic c.skillsEntries m
      | none => rfl
    split_ifs with h
    · rw [mapLookup_set_ne _ _ _ _ (by decide), h3]
    · exact h3
  have hga : (getAuthS w none "anthropic").1 =
      mapLookup (loadAuthProfiles w) "anthropic" := rfl
  cases hk : getAnthropicTokenFromKeychain w with
  | some t =>
    show (getAuthS w none "anthropic").1 =
      some { provider := "anthropic", profileName := "keychain",
             token := some t, apiKey := none }
    rw [hga]
    simp only [loadAuthProfiles, hk]
    rw [htail]
    simp [mapSet, mapHas, mapLookup]
  | none =>
    cases he : getAnthropicTokenFromEnvOrFiles w with
    | some t =>
      show (getAuthS w none "anthropic").1 =
        some { provider := "anthropic", profileName := "env",
               token := some t, apiKey := none }
      rw [hga]
      simp only [loadAuthProfiles, hk, he]
      rw [htail]
      have hne : (t == "") = false := envOrFiles_nonempty he
      have hcond1 : (!mapHas ([] : List (String × ProviderAuth)) "anthropic") =
          true := rfl
      have hcond2 : (!(t == "")) = true := by
        rw [hne]
        rfl
      rw [if_pos hcond1, if_pos hcond2]
      simp [mapSet, mapHas, mapLookup]
    | none =>
      show (getAuthS w none "anthropic").1 = none
      rw [hga]
      simp only [loadAuthProfiles, hk, he]
      rw [htail]
      rfl

/-- C10: a `getAuth` call fills the cache; later calls read only the
cache (their result is independent of the ambient world, so the sources
are not re-read), an equal provider name yields the same value, and
`reloadAuth` clears the cache so that the next call re-reads the
sources. -/
theorem C10_cache_discipline (w w' : World)
    (s : Option (List (String × ProviderAuth))) (p q : String) :
    (getAuthS w' ((getAuthS w s p).2) q).1 =
      (getAuthS w ((getAuthS w s p).2) q).1 ∧
    (getAuthS w' ((getAuthS w s p).2) p).1 = (getAuthS w s p).1 ∧
    (getAuthS w' (reloadAuth ((getAuthS w s p).2)) q).1 =
      mapLookup (loadAuthProfiles w') q := by
  cases s with
  | none => exact ⟨rfl, rfl, rfl⟩
  | some m => exact ⟨rfl, rfl, rfl⟩
